import Mathlib

/-!
Shallow embedding of the orchestration-and-telemetry core of the claimsFlow
repository (pipeline controller, master/sub agents, websocket broadcaster),
together with theorems settling the specification claims about it.

Conventions used throughout:
* Python dict lookups `d.get(k, default)` on optionally-present keys are
  modelled with `Option` fields and `Option.getD`.
* Python string truthiness (`if error:` is `False` for `None` and for `""`)
  is modelled explicitly where the source relies on it.
* Wall-clock reads (`time.time()`, `datetime.utcnow()`) are modelled as
  rational-number parameters supplied by the caller of each step.
* External collaborator calls (Gmail, OpenAI, FAISS, file system) are
  modelled by their observable outcome: either the value they return or the
  fact that they raised, supplied as an explicit parameter.
-/

/-- Agent lifecycle status, from `AgentStatus` in agents/base_agent.py
(INITIALIZED / PROCESSING / COMPLETED / FAILED / PAUSED). -/
inductive AgentStatus
  | INITIALIZED
  | PROCESSING
  | COMPLETED
  | FAILED
  | PAUSED
deriving DecidableEq, Repr

/- ----------------------------------------------------------------------
Claims analysis agent: decision merge (agents/analysis_agent.py)
---------------------------------------------------------------------- -/

/-- The fields of `ClaimsAnalysisAgent.results` that
`_determine_recommendation` (analysis_agent.py lines 468-483) reads.
Each field is `none` when the corresponding key path is absent from the
dict (the source reads them via `.get(key, {}).get(field, default)`).
Risk levels and recommendations are the literal strings the source
compares against ("HIGH", "MEDIUM", "LOW", "UNKNOWN"; "APPROVE",
"REJECT", "REVIEW"). -/
structure AnalysisResultsState where
  fraud_risk_level : Option String := none
  violations_found : Option Bool := none
  discrepancies_found : Option Bool := none
  duplicates_found : Option Bool := none
  validation_failures : Option Bool := none
  compliance_issues : Option Bool := none
deriving DecidableEq, Repr

/-- ClaimsAnalysisAgent._determine_recommendation (analysis_agent.py
lines 468-483), reading a given `self.results` state. -/
def determine_recommendation (results : AnalysisResultsState) : String :=
  let fraud_risk := results.fraud_risk_level.getD "UNKNOWN"
  let exclusions_violated := results.violations_found.getD false
  let discrepancies := results.discrepancies_found.getD false
  let duplicates := results.duplicates_found.getD false
  let date_failures := results.validation_failures.getD false
  let compliance_issues := results.compliance_issues.getD false
  if exclusions_violated || duplicates || (fraud_risk == "HIGH") then
    "REJECT"
  else if discrepancies || date_failures || compliance_issues || (fraud_risk == "MEDIUM") then
    "REVIEW"
  else if fraud_risk == "LOW" && !(discrepancies || date_failures || compliance_issues) then
    "APPROVE"
  else
    "REVIEW"

/-- The value of `self.results` set by `BaseAgent.__init__`
(base_agent.py line 36): the empty dict, hence every key path absent. -/
def analysisAgentFreshResults : AnalysisResultsState := {}

/-- Models the results assembly in `ClaimsAnalysisAgent.execute`
(analysis_agent.py lines 71-82).  The Python statement is
`self.results = { ..., "overall_recommendation": self._determine_recommendation() }`:
the dict literal — including the `_determine_recommendation()` call — is
fully evaluated BEFORE the assignment to `self.results` takes effect, so
the recommendation is computed from the previous value of `self.results`
(`selfResults`), not from the freshly computed analysis fields
(`computed`).  Returns the new `self.results` fields together with the
`overall_recommendation` string stored alongside them. -/
def analysisExecuteAssembleResults (selfResults : AnalysisResultsState)
    (computed : AnalysisResultsState) : AnalysisResultsState × String :=
  (computed, determine_recommendation selfResults)

/-- MasterClaimsAgent._finalize_results (master_agent.py line 81): the
run's final decision is `analysis_results.get("overall_recommendation", "REVIEW")`. -/
def finalizeOverallRecommendation (overall_recommendation : Option String) : String :=
  overall_recommendation.getD "REVIEW"

/-- An analysis outcome with HIGH fraud risk and every other check clean. -/
def highFraudCleanResults : AnalysisResultsState :=
  { fraud_risk_level := some "HIGH", violations_found := some false,
    discrepancies_found := some false, duplicates_found := some false,
    validation_failures := some false, compliance_issues := some false }

/-- An analysis outcome with LOW fraud risk and every other check clean. -/
def lowFraudCleanResults : AnalysisResultsState :=
  { fraud_risk_level := some "LOW", violations_found := some false,
    discrepancies_found := some false, duplicates_found := some false,
    validation_failures := some false, compliance_issues := some false }

/- ----------------------------------------------------------------------
Pipeline controller (pipeline_controller.py)
---------------------------------------------------------------------- -/

/-- One entry of `self.processing_history` (pipeline_controller.py lines
36-46 on success, lines 70-77 on failure).  Wall-clock timestamp and
duration fields are omitted (they are opaque readings of `datetime.utcnow()`);
the fields the claims concern are kept. -/
structure RunRecord where
  agent_id : String
  sender_email : String
  status : String
  recommendation : Option String := none
  critical_issues_count : Nat := 0
  report_path : Option String := none
  error : Option String := none
deriving DecidableEq, Repr

/-- The parts of a completed `MasterClaimsAgent.execute` result dict that
the pipeline controller reads (pipeline_controller.py lines 43-45). -/
structure MasterResults where
  overall_recommendation : Option String := none
  critical_issues : List String := []
  report_pdf_path : Option String := none
deriving DecidableEq, Repr

/-- Observable outcome of `await master_agent.execute(sender_email)`:
either the results dict, or the message of the exception it raised. -/
inductive ExecOutcome
  | success (results : MasterResults)
  | failure (excMsg : String)
deriving DecidableEq, Repr

/-- State of a `ClaimsProcessingPipeline` instance.  `agents` is the heap
of `MasterClaimsAgent` objects keyed by agent id (holding each object's
`status` attribute, the part of the object the claims observe); `active`
is the key set of the `self.active_agents` dict, in insertion order;
`processing_history` is `self.processing_history`. -/
structure PipelineState where
  agents : List (String × AgentStatus) := []
  active : List String := []
  processing_history : List RunRecord := []
deriving DecidableEq, Repr

/-- Status attribute of the agent object stored for `aid`, if any. -/
def lookupAgent (agents : List (String × AgentStatus)) (aid : String) :
    Option AgentStatus :=
  (agents.find? (fun p => p.1 == aid)).map (fun p => p.2)

/-- Overwrite the status attribute of every agent object keyed `aid`. -/
def setAgentStatus (agents : List (String × AgentStatus)) (aid : String)
    (s : AgentStatus) : List (String × AgentStatus) :=
  agents.map (fun p => if p.1 == aid then (p.1, s) else p)

/-- The value `start_processing` returns to its caller
(pipeline_controller.py lines 55-61 and 84-89). -/
structure StartReturn where
  success : Bool
  agent_id : String
  results : Option MasterResults := none
  error : Option String := none
  record : RunRecord
deriving DecidableEq, Repr

/-- ClaimsProcessingPipeline.start_processing (pipeline_controller.py
lines 17-89).  The generated agent id and the outcome of
`master_agent.execute` are explicit parameters.  The master agent is
registered in `active_agents` before execution; on both success and
failure a record is appended to `processing_history` and the agent is
removed from `active_agents` before returning.  The heap entry records
the master agent object's status after execution (COMPLETED is set by
`MasterClaimsAgent.execute` line 34 on success; FAILED by its error
update on line 44 before re-raising).  The whole body is wrapped in
`try/except Exception`, so the function returns a dict in both cases. -/
def start_processing (st : PipelineState) (agent_id sender_email : String)
    (outcome : ExecOutcome) : PipelineState × StartReturn :=
  let agents1 := st.agents ++
    [(agent_id, match outcome with
      | ExecOutcome.success _ => AgentStatus.COMPLETED
      | ExecOutcome.failure _ => AgentStatus.FAILED)]
  let active1 := st.active ++ [agent_id]
  match outcome with
  | ExecOutcome.success results =>
      let record : RunRecord :=
        { agent_id := agent_id, sender_email := sender_email,
          status := "COMPLETED",
          recommendation := results.overall_recommendation,
          critical_issues_count := results.critical_issues.length,
          report_path := results.report_pdf_path, error := none }
      ({ agents := agents1, active := active1.erase agent_id,
         processing_history := st.processing_history ++ [record] },
       { success := true, agent_id := agent_id, results := some results,
         error := none, record := record })
  | ExecOutcome.failure e =>
      let errMsg := "Claims processing failed: " ++ e
      let record : RunRecord :=
        { agent_id := agent_id, sender_email := sender_email,
          status := "FAILED", error := some errMsg }
      ({ agents := agents1, active := active1.erase agent_id,
         processing_history := st.processing_history ++ [record] },
       { success := false, agent_id := agent_id, results := none,
         error := some errMsg, record := record })

/-- ClaimsProcessingPipeline.get_agent_status (pipeline_controller.py
lines 91-94): the live state if the id is active, else `None`.  The
comprehensive status dict is abstracted to the agent's status attribute. -/
def get_agent_status (st : PipelineState) (aid : String) : Option AgentStatus :=
  if aid ∈ st.active then lookupAgent st.agents aid else none

/-- ClaimsProcessingPipeline.stop_agent (pipeline_controller.py lines
96-101): on an active id, `MasterClaimsAgent.stop_processing`
(master_agent.py lines 167-169) sets the agent object's status to PAUSED,
then the id is deleted from `active_agents` and True is returned;
otherwise False. -/
def stop_agent (st : PipelineState) (aid : String) : PipelineState × Bool :=
  if aid ∈ st.active then
    ({ st with agents := setAgentStatus st.agents aid AgentStatus.PAUSED,
               active := st.active.erase aid }, true)
  else (st, false)

/-- ClaimsProcessingPipeline.get_active_agents (pipeline_controller.py
lines 103-104). -/
def get_active_agents (st : PipelineState) : List String := st.active

/-- ClaimsProcessingPipeline.get_processing_history (pipeline_controller.py
lines 106-107): the Python slice `self.processing_history[-limit:]`,
which is the whole list when `limit = 0` (since `lst[-0:] = lst[0:]`) and
the last `limit` entries otherwise. -/
def get_processing_history (st : PipelineState) (limit : Nat) : List RunRecord :=
  if limit = 0 then st.processing_history
  else st.processing_history.drop (st.processing_history.length - limit)

/- ----------------------------------------------------------------------
Event broadcaster (websocket_manager.py)
---------------------------------------------------------------------- -/

/-- One registered websocket connection.  `sid` identifies the socket;
`failsOnSend` records whether `await websocket.send(...)` raises on it
(`ConnectionClosed` or any other exception — the source treats both the
same way, websocket_manager.py lines 43-49). -/
structure Subscriber where
  sid : Nat
  failsOnSend : Bool
deriving DecidableEq, Repr

/-- State of a `WebSocketManager`: the `self.connections` registry. -/
structure WSManagerState where
  connections : List Subscriber := []
deriving DecidableEq, Repr

/-- WebSocketManager.broadcast (websocket_manager.py lines 36-52).
Returns the manager state after the call together with the list of
(socket id, message) deliveries that succeeded.  With no connections it
returns at once (`if not self.connections: return`).  Otherwise every
connection is attempted; a send that raises puts the socket in
`disconnected`, which is discarded from the registry after the loop.
Every exception from a send is caught, so the call itself never raises. -/
def broadcast (st : WSManagerState) (message : String) :
    WSManagerState × List (Nat × String) :=
  if st.connections.isEmpty then (st, [])
  else
    let disconnected := st.connections.filter (fun c => c.failsOnSend)
    let delivered :=
      (st.connections.filter (fun c => !c.failsOnSend)).map
        (fun c => (c.sid, message))
    ({ connections := st.connections.filter (fun c => !(c ∈ disconnected)) },
     delivered)

/- ----------------------------------------------------------------------
Stage-tracking unit (agents/base_agent.py, BaseAgent.send_update)
---------------------------------------------------------------------- -/

/-- Python truthiness of the `error: str = None` argument: `if error:` is
`False` both for `None` and for the empty string. -/
def errIsTruthy : Option String → Bool
  | none => false
  | some e => !(e == "")

/-- Python truthiness of `self.stage_start_time` (a float or `None`):
`if self.stage_start_time:` is `False` for `None` and for `0.0`. -/
def timeIsTruthy : Option Rat → Bool
  | none => false
  | some t => !(t == 0)

/-- Events a `BaseAgent` emits through the websocket manager during
`send_update`: the stage-completion event
(`WebSocketManager.send_stage_completion`) and the progress event
(`WebSocketManager.send_progress_update`). -/
inductive Event
  | stageCompletion (agent_id : String) (stage : String) (duration : Rat)
      (success : Bool)
  | progressEvent (agent_id : String) (status : AgentStatus)
      (stage message : String) (progressVal : Rat) (error : Option String)
deriving DecidableEq, Repr

/-- The mutable attributes of a `BaseAgent` that `send_update` reads and
writes (base_agent.py lines 30-38).  `hasManager` is whether
`self.websocket_manager` is set (events are only emitted when it is). -/
structure AgentState where
  agent_id : String
  hasManager : Bool
  status : AgentStatus
  current_stage : String
  progress : Rat
  errors : List String
  stage_start_time : Option Rat
deriving DecidableEq, Repr

/-- A freshly constructed `BaseAgent` (base_agent.py lines 30-38). -/
def initAgent (aid : String) (hasManager : Bool) : AgentState :=
  { agent_id := aid, hasManager := hasManager,
    status := AgentStatus.INITIALIZED, current_stage := "", progress := 0,
    errors := [], stage_start_time := none }

/-- BaseAgent.send_update (base_agent.py lines 40-75).  `now` is the
wall-clock reading for this call (the source calls `time.time()` twice in
the transition branch, for the duration and for the reset; both reads are
modelled as the single value `now`).  Returns the updated agent state and
the events emitted, in emission order: on a stage change with a truthy
previous `stage_start_time` and a manager present, first the
stage-completion event for the previous stage with
`duration = now - stage_start_time` and `success = not error`; then,
whenever a manager is present, the progress event built from the
`AgentUpdate` dataclass (whose `status` is `self.status` after the error
branch has run). -/
def send_update (st : AgentState) (now : Rat) (stage message : String)
    (progressArg : Rat) (error : Option String) : AgentState × List Event :=
  let st1 :=
    if errIsTruthy error then
      { st with status := AgentStatus.FAILED,
                errors := st.errors ++ [error.getD ""] }
    else st
  let evs1 :=
    if st1.current_stage ≠ stage then
      if timeIsTruthy st1.stage_start_time && st1.hasManager then
        [Event.stageCompletion st1.agent_id st1.current_stage
          (now - st1.stage_start_time.getD 0) (!errIsTruthy error)]
      else []
    else []
  let st2 :=
    if st1.current_stage ≠ stage then
      { st1 with stage_start_time := some now }
    else st1
  let st3 := { st2 with current_stage := stage, progress := progressArg }
  let evs2 :=
    if st3.hasManager then
      [Event.progressEvent st3.agent_id st3.status stage message progressArg
        error]
    else []
  (st3, evs1 ++ evs2)

/-- The arguments of one `send_update` call, with its wall-clock reading. -/
structure AdvanceCall where
  now : Rat
  stage : String
  message : String
  progressArg : Rat
  error : Option String
deriving DecidableEq, Repr

/-- Run a sequence of `send_update` calls on an agent, collecting every
emitted event in order. -/
def runAdvances : AgentState → List AdvanceCall → AgentState × List Event
  | st, [] => (st, [])
  | st, c :: rest =>
      let step := send_update st c.now c.stage c.message c.progressArg c.error
      let restRun := runAdvances step.1 rest
      (restRun.1, step.2 ++ restRun.2)

/-- Whether an event is a stage-completion event. -/
def isStageCompletion : Event → Bool
  | Event.stageCompletion _ _ _ _ => true
  | Event.progressEvent _ _ _ _ _ _ => false

/-- Number of adjacent stage-name changes in a sequence of calls. -/
def adjChanges : List String → Nat
  | [] => 0
  | [_] => 0
  | a :: b :: r => (if a ≠ b then 1 else 0) + adjChanges (b :: r)

/-- The wall-clock readings of a call list are at least `b` and
non-decreasing along the list. -/
def timesLB (b : Rat) : List AdvanceCall → Bool
  | [] => true
  | c :: r => if b ≤ c.now then timesLB c.now r else false

/- ----------------------------------------------------------------------
Wire encoding of progress events
(websocket_manager.py send_progress_update, base_agent.py send_update)
---------------------------------------------------------------------- -/

/-- JSON values, for the dicts passed to `json.dumps`. -/
inductive JValue
  | jstr (s : String)
  | jnum (q : Rat)
  | jbool (b : Bool)
  | jnull
  | jobj (fields : List (String × JValue))

/-- Encoding of an optional string field (`None` becomes JSON null). -/
def jsonOfOptStr : Option String → JValue
  | none => JValue.jnull
  | some s => JValue.jstr s

/-- The `AgentUpdate` dataclass (base_agent.py lines 17-26) as built by
`send_update` lines 56-65, minus the opaque wall-clock `timestamp`
(carried separately as a string below).  The payload dict is modelled as
an optional JSON object. -/
structure AgentUpdate where
  agent_id : String
  status : AgentStatus
  stage : String
  message : String
  progressVal : Rat
  data : Option (List (String × JValue))
  error : Option String

/-- WebSocketManager.send_progress_update (websocket_manager.py lines
54-68): the key/value pairs of the `update` dict passed to `json.dumps`,
in construction order.  `data or {}` maps both `None` and `{}` to the
empty object. -/
def progressUpdateMessage (agent_id stage message : String) (progress : Rat)
    (data : Option (List (String × JValue))) (error : Option String)
    (timestamp : String) : List (String × JValue) :=
  [("type", JValue.jstr "agent_progress"),
   ("agent_id", JValue.jstr agent_id),
   ("stage", JValue.jstr stage),
   ("message", JValue.jstr message),
   ("progress", JValue.jnum progress),
   ("data", JValue.jobj (data.getD [])),
   ("error", jsonOfOptStr error),
   ("timestamp", JValue.jstr timestamp)]

/-- The broadcast wire message for one progress update: BaseAgent.send_update
(base_agent.py lines 67-75) forwards `update.agent_id`, `update.stage`,
`update.message`, `update.progress`, `update.data` and `update.error` of
the `AgentUpdate` to `send_progress_update` — and nothing else from it. -/
def broadcastMessageOfUpdate (u : AgentUpdate) (timestamp : String) :
    List (String × JValue) :=
  progressUpdateMessage u.agent_id u.stage u.message u.progressVal u.data
    u.error timestamp

/- ----------------------------------------------------------------------
Master agent run traces (agents/master_agent.py, document_agent.py,
analysis_agent.py, report_agent.py)
---------------------------------------------------------------------- -/

/-- One progress event of a run trace: the fields of
`WebSocketManager.send_progress_update` relevant to the run-level claims
(stage-completion, tool and analysis-result events are emitted strictly
between the progress events of the agent that owns them and are omitted
from the trace model). -/
structure PE where
  agent_id : String
  status : AgentStatus
  stage : String
  message : String
  progressVal : Rat
  error : Option String
deriving DecidableEq, Repr

/-- The (stage, message, progress) checkpoints a sub-agent's `execute`
announces via `send_update` before its final completion update, in
program order.  Between consecutive checkpoints the agent performs work
that may raise. -/
def docWorkStages : List (String × String × Rat) :=
  [("initialization", "Initializing document processing agent", 5),
   ("email_connection", "Connecting to Gmail and fetching emails", 10),
   ("attachment_download", "Downloading and processing email attachments", 20),
   ("document_preprocessing", "Analyzing document structure and content types", 35),
   ("email_analysis", "Performing enhanced email content analysis", 45),
   ("document_processing", "Creating document embeddings and vector store", 60),
   ("data_validation", "Validating document completeness and integrity", 80)]

/-- Checkpoints of `ClaimsAnalysisAgent.execute` (analysis_agent.py
lines 34-67). -/
def analysisWorkStages : List (String × String × Rat) :=
  [("initialization", "Initializing claims analysis agent", 5),
   ("document_query", "Querying documents for claims data", 15),
   ("fraud_detection", "Running advanced fraud detection analysis", 25),
   ("exclusion_check", "Validating claims against treaty exclusions", 35),
   ("amount_reconciliation", "Reconciling amounts between documents", 45),
   ("date_validation", "Validating claim dates and policy periods", 55),
   ("duplicate_check", "Checking for duplicate claims in database", 65),
   ("compliance_validation", "Running regulatory compliance checks", 75),
   ("final_assessment", "Generating comprehensive final assessment", 85)]

/-- Checkpoints of `ReportGenerationAgent.execute` (report_agent.py
lines 19-35). -/
def reportWorkStages : List (String × String × Rat) :=
  [("initialization", "Initializing report generation", 5),
   ("template_preparation", "Preparing report template", 15),
   ("data_compilation", "Compiling analysis data", 25),
   ("html_generation", "Generating HTML report", 45),
   ("pdf_conversion", "Converting to PDF", 65),
   ("summary_generation", "Generating executive summary", 80)]

/-- The progress events for a list of announced checkpoints: each is sent
while `self.status == PROCESSING` with no error argument. -/
def checkpointEvents (aid : String) (ws : List (String × String × Rat)) :
    List PE :=
  ws.map (fun c =>
    { agent_id := aid, status := AgentStatus.PROCESSING, stage := c.1,
      message := c.2.1, progressVal := c.2.2, error := none })

/-- The value of `self.progress` after announcing the given checkpoints
(0.0 from `__init__` when none were announced). -/
def lastProgressOf (ws : List (String × String × Rat)) : Rat :=
  (ws.map (fun c => c.2.2)).getLastD 0

/-- Trace of progress events of one sub-agent `execute` body of the shape
shared by the document, analysis and report agents: announce checkpoints
in order; if the work after the `k`-th announced checkpoint raises
(`failAt = some k`), the `except` branch sends one error update — stage
"error", message `errMsg`, progress `self.progress`, `error=errMsg`,
status FAILED (set by the error branch of `send_update`) — and re-raises;
otherwise `self.status = COMPLETED` is set and the final completion
update (progress 100.0, message `doneMsg`) is sent. -/
def subAgentTrace (aid : String) (ws : List (String × String × Rat))
    (doneMsg : String) (failAt : Option Nat) (errMsg : String) : List PE :=
  match failAt with
  | none =>
      checkpointEvents aid ws ++
        [{ agent_id := aid, status := AgentStatus.COMPLETED,
           stage := "completion", message := doneMsg, progressVal := 100,
           error := none }]
  | some k =>
      checkpointEvents aid (ws.take k) ++
        [{ agent_id := aid, status := AgentStatus.FAILED, stage := "error",
           message := errMsg, progressVal := lastProgressOf (ws.take k),
           error := some errMsg }]

/-- Sub-agent ids derived by `MasterClaimsAgent` (master_agent.py lines
48, 57, 69): `f"{self.agent_id}_document"` and so on. -/
def docId (aid : String) : String := aid ++ "_document"

/-- Analysis sub-agent id. -/
def analysisId (aid : String) : String := aid ++ "_analysis"

/-- Report sub-agent id. -/
def reportId (aid : String) : String := aid ++ "_report"

/-- Where (if anywhere) a run of `MasterClaimsAgent.execute` fails: `ok`
when all three sub-agents succeed; `failDoc k e` when the document
agent's work after its `k`-th checkpoint raises an exception with message
`e` (and symmetrically for the analysis and report agents). -/
inductive MasterOutcome
  | ok
  | failDoc (k : Nat) (e : String)
  | failAnalysis (k : Nat) (e : String)
  | failReport (k : Nat) (e : String)
deriving DecidableEq, Repr

/-- A failure index is realisable when it lies between 1 (the work after
the first checkpoint) and the number of checkpoints of the failing agent. -/
def outcomeValid : MasterOutcome → Bool
  | MasterOutcome.ok => true
  | MasterOutcome.failDoc k _ => 1 ≤ k && k ≤ docWorkStages.length
  | MasterOutcome.failAnalysis k _ => 1 ≤ k && k ≤ analysisWorkStages.length
  | MasterOutcome.failReport k _ => 1 ≤ k && k ≤ reportWorkStages.length

/-- A progress event of the master agent while PROCESSING. -/
def mProg (aid stage msg : String) (p : Rat) : PE :=
  { agent_id := aid, status := AgentStatus.PROCESSING, stage := stage,
    message := msg, progressVal := p, error := none }

/-- The error update of `MasterClaimsAgent.execute` (master_agent.py
lines 42-45): stage "error", message and error string
`f"Master agent execution failed: {e}"`, progress `self.progress` (the
progress of the master's own last update), status FAILED. -/
def masterErrEvent (aid : String) (p : Rat) (msg : String) : PE :=
  { agent_id := aid, status := AgentStatus.FAILED, stage := "error",
    message := msg, progressVal := p, error := some msg }

/-- The sequence of progress events a run of `MasterClaimsAgent.execute`
(master_agent.py lines 17-45) emits, for each possible outcome.  The
master announces its own phases at progress 2, 5, 35, 70, 95 and a final
completion update at 100 with status COMPLETED (set on line 34 before the
update on line 37); each `_run_*` helper constructs the sub-agent (whose
trace is inlined at that point) and wraps any exception it raises with
the phase prefix, which the master's `except` branch then reports before
re-raising the helper's exception. -/
def masterRun (aid : String) (o : MasterOutcome) : List PE :=
  let m1 := mProg aid "initialization"
    "Initializing master claims processing agent" 2
  let m2 := mProg aid "document_processing"
    "Starting document processing phase" 5
  let m3 := mProg aid "claims_analysis" "Starting claims analysis phase" 35
  let m4 := mProg aid "report_generation"
    "Starting report generation phase" 70
  let m5 := mProg aid "finalization" "Finalizing results" 95
  let m6 : PE :=
    { agent_id := aid, status := AgentStatus.COMPLETED, stage := "completion",
      message := "Claims processing completed successfully",
      progressVal := 100, error := none }
  let docDone := "Document processing completed successfully"
  let analysisDone := "Claims analysis completed successfully"
  let reportDone := "Report generated successfully"
  match o with
  | MasterOutcome.ok =>
      [m1, m2] ++ subAgentTrace (docId aid) docWorkStages docDone none "" ++
      [m3] ++
        subAgentTrace (analysisId aid) analysisWorkStages analysisDone none "" ++
      [m4] ++ subAgentTrace (reportId aid) reportWorkStages reportDone none "" ++
      [m5, m6]
  | MasterOutcome.failDoc k e =>
      [m1, m2] ++
      subAgentTrace (docId aid) docWorkStages docDone (some k)
        ("Document processing failed: " ++ e) ++
      [masterErrEvent aid 5
        ("Master agent execution failed: Document processing failed: " ++ e)]
  | MasterOutcome.failAnalysis k e =>
      [m1, m2] ++ subAgentTrace (docId aid) docWorkStages docDone none "" ++
      [m3] ++
      subAgentTrace (analysisId aid) analysisWorkStages analysisDone (some k)
        ("Claims analysis failed: " ++ e) ++
      [masterErrEvent aid 35
        ("Master agent execution failed: Claims analysis failed: " ++ e)]
  | MasterOutcome.failReport k e =>
      [m1, m2] ++ subAgentTrace (docId aid) docWorkStages docDone none "" ++
      [m3] ++
        subAgentTrace (analysisId aid) analysisWorkStages analysisDone none "" ++
      [m4] ++
      subAgentTrace (reportId aid) reportWorkStages reportDone (some k)
        ("Report generation failed: " ++ e) ++
      [masterErrEvent aid 70
        ("Master agent execution failed: Report generation failed: " ++ e)]

/-- The master agent object's status once `execute` has returned or
raised: COMPLETED on success (master_agent.py line 34), FAILED otherwise
(set by the error update on line 44 before the bare `raise`). -/
def masterFinalStatus : MasterOutcome → AgentStatus
  | MasterOutcome.ok => AgentStatus.COMPLETED
  | _ => AgentStatus.FAILED

/-- The exception message `ClaimsProcessingPipeline.start_processing`
observes from `master_agent.execute` for a failing outcome: the master's
bare `raise` re-raises the exception raised by the `_run_*` helper, whose
message is the phase prefix plus the sub-agent's original message. -/
def pipelineOutcome (o : MasterOutcome) (results : MasterResults) : ExecOutcome :=
  match o with
  | MasterOutcome.ok => ExecOutcome.success results
  | MasterOutcome.failDoc _ e =>
      ExecOutcome.failure ("Document processing failed: " ++ e)
  | MasterOutcome.failAnalysis _ e =>
      ExecOutcome.failure ("Claims analysis failed: " ++ e)
  | MasterOutcome.failReport _ e =>
      ExecOutcome.failure ("Report generation failed: " ++ e)

/-- Progress values of a trace are non-decreasing along the list. -/
def nondecRats : List Rat → Bool
  | [] => true
  | [_] => true
  | a :: b :: r => if a ≤ b then nondecRats (b :: r) else false

/-- Terminal statuses in the sense of the run-level claims. -/
def isTerminalStatus : AgentStatus → Bool
  | AgentStatus.COMPLETED => true
  | AgentStatus.FAILED => true
  | _ => false

/-- Any terminal-status entry of the list is its last entry. -/
def terminalOnlyLast : List AgentStatus → Bool
  | [] => true
  | s :: rest =>
      if isTerminalStatus s then rest.isEmpty else terminalOnlyLast rest

/-- Events of a trace belonging to one agent id, in emission order. -/
def eventsOf (tr : List PE) (id : String) : List PE :=
  tr.filter (fun ev => ev.agent_id == id)

/-- Pipeline state after `n` consecutive `start_processing` runs that all
fail in email intake, starting from a fresh controller. -/
def historyAfterRuns (n : Nat) : PipelineState :=
  (List.range n).foldl
    (fun st _ =>
      (start_processing st "a" "s"
        (ExecOutcome.failure "No emails found from s")).1)
    {}

/- ----------------------------------------------------------------------
Theorems
---------------------------------------------------------------------- -/

/-- Claim C1.  The pure merge `_determine_recommendation` does follow the
spec's precedence on its inputs (fraud HIGH with everything else clean
gives REJECT; fraud LOW with all five booleans false gives APPROVE), but
on the run that produced the analysis results the stored
`overall_recommendation` is computed from the still-empty `self.results`
dict — the call sits inside the dict literal being assigned to
`self.results` — so the decision actually recorded (and the one the
master agent finalizes) is REVIEW for every analysis outcome, including
both of the inputs the claim singles out. -/
theorem C1_decision_merge_reads_stale_results :
    determine_recommendation highFraudCleanResults = "REJECT" ∧
    determine_recommendation lowFraudCleanResults = "APPROVE" ∧
    (analysisExecuteAssembleResults analysisAgentFreshResults
      highFraudCleanResults).2 = "REVIEW" ∧
    (analysisExecuteAssembleResults analysisAgentFreshResults
      lowFraudCleanResults).2 = "REVIEW" ∧
    finalizeOverallRecommendation
      (some ((analysisExecuteAssembleResults analysisAgentFreshResults
        highFraudCleanResults).2)) = "REVIEW" :=
  ⟨rfl, rfl, rfl, rfl, rfl⟩

/-- Claim C2, counterexample.  There is no cap on the stored run-history
log: after 51 failed runs the history holds 51 records, exceeding the
only configured bound in the controller (the accessor's default
`limit = 50`). -/
theorem C2_counterexample_history_unbounded :
    (historyAfterRuns 51).processing_history.length = 51 ∧
    ¬ (historyAfterRuns 51).processing_history.length ≤ 50 := by
  have h : (historyAfterRuns 51).processing_history.length = 51 := by rfl
  refine ⟨h, ?_⟩
  rw [h]
  omega

/-- Claim C2, amended.  The stored history grows without bound (one
record appended per run, nothing evicted); what is capped is the view:
for every positive `limit`, `get_processing_history` returns at most
`limit` records, and they are a suffix of the stored history (the most
recent records, oldest omitted first). -/
theorem C2_amended_history_view_capped (st : PipelineState) (limit : Nat)
    (h : 0 < limit) :
    (get_processing_history st limit).length ≤ limit ∧
    (get_processing_history st limit) <:+ st.processing_history := by
  unfold get_processing_history
  rw [if_neg (Nat.pos_iff_ne_zero.mp h)]
  constructor
  · rw [List.length_drop]
    omega
  · exact List.drop_suffix _ _

/-- Witness for C2_amended_history_view_capped at `limit = 3` on the
state reached after 51 failed runs. -/
theorem C2_amended_history_view_capped_witness :
    0 < 3 ∧
    ((get_processing_history (historyAfterRuns 51) 3).length ≤ 3 ∧
      (get_processing_history (historyAfterRuns 51) 3) <:+
        (historyAfterRuns 51).processing_history) :=
  ⟨by decide, C2_amended_history_view_capped (historyAfterRuns 51) 3 (by decide)⟩

/-- Claim C3.  Broadcasting with zero subscribers returns at once with
nothing delivered and the registry unchanged; on every broadcast, each
subscriber whose send raises is removed from the registry, every
subscriber whose send does not raise still receives the message, and the
call is a total function of the registry (every exception from a send is
caught inside the loop, so `broadcast` never raises to its caller). -/
theorem C3_broadcast_drops_failed_delivers_rest (st : WSManagerState)
    (msg : String) :
    (st.connections = [] → broadcast st msg = (st, [])) ∧
    (∀ c ∈ st.connections, c.failsOnSend = true →
      c ∉ (broadcast st msg).1.connections) ∧
    (∀ c ∈ st.connections, c.failsOnSend = false →
      (c.sid, msg) ∈ (broadcast st msg).2) := by
  refine ⟨fun h => by simp [broadcast, h], ?_, ?_⟩
  · intro c hc hf
    have hemp : st.connections.isEmpty = false := by
      cases hl : st.connections with
      | nil => rw [hl] at hc; cases hc
      | cons a l => rfl
    simp only [broadcast, hemp, Bool.false_eq_true, if_false]
    intro hmem
    have hp := (List.mem_filter.mp hmem).2
    simp only [Bool.not_eq_true', decide_eq_false_iff_not] at hp
    exact hp (List.mem_filter.mpr ⟨hc, hf⟩)
  · intro c hc hf
    have hemp : st.connections.isEmpty = false := by
      cases hl : st.connections with
      | nil => rw [hl] at hc; cases hc
      | cons a l => rfl
    simp only [broadcast, hemp, Bool.false_eq_true, if_false]
    exact List.mem_map.mpr
      ⟨c, List.mem_filter.mpr ⟨hc, by simp [hf]⟩, rfl⟩

/-- Witness for C3_broadcast_drops_failed_delivers_rest on a registry
with one failing and one healthy subscriber. -/
theorem C3_broadcast_witness :
    (⟨1, true⟩ : Subscriber) ∉
      (broadcast ⟨[⟨1, true⟩, ⟨2, false⟩]⟩ "hello").1.connections ∧
    ((2 : Nat), "hello") ∈ (broadcast ⟨[⟨1, true⟩, ⟨2, false⟩]⟩ "hello").2 :=
  ⟨(C3_broadcast_drops_failed_delivers_rest ⟨[⟨1, true⟩, ⟨2, false⟩]⟩
      "hello").2.1 ⟨1, true⟩ (by decide) (by decide),
   (C3_broadcast_drops_failed_delivers_rest ⟨[⟨1, true⟩, ⟨2, false⟩]⟩
      "hello").2.2 ⟨2, false⟩ (by decide) (by decide)⟩

/-- Setting the status of the agent object keyed `aid` makes a subsequent
lookup of `aid` return that status (when an object for `aid` exists). -/
theorem lookupAgent_setAgentStatus (ag : List (String × AgentStatus))
    (aid : String) (s : AgentStatus) :
    lookupAgent (setAgentStatus ag aid s) aid =
      (lookupAgent ag aid).map (fun _ => s) := by
  induction ag with
  | nil => rfl
  | cons p rest ih =>
      by_cases h : p.1 = aid
      · simp [lookupAgent, setAgentStatus, h]
      · have hb : (p.1 == aid) = false := by
          simp [h]
        simp only [setAgentStatus, List.map_cons, hb, Bool.false_eq_true,
          if_false]
        simp only [lookupAgent, List.find?_cons, hb] at ih ⊢
        exact ih

/-- Claim C7.  For every id present in the active-run table, `stop_agent`
sets that agent object's status to PAUSED, removes the id from the
active-run table (so it no longer appears among the active agents),
returns True, and a subsequent `get_agent_status` call returns None. -/
theorem C7_stop_agent_pauses_and_deregisters (st : PipelineState)
    (aid : String) (hactive : aid ∈ st.active) (hnd : st.active.Nodup)
    (hobj : (lookupAgent st.agents aid).isSome = true) :
    (stop_agent st aid).2 = true ∧
    aid ∉ get_active_agents (stop_agent st aid).1 ∧
    get_agent_status (stop_agent st aid).1 aid = none ∧
    lookupAgent (stop_agent st aid).1.agents aid = some AgentStatus.PAUSED := by
  have hrm : aid ∉ st.active.erase aid := fun hmem =>
    ((List.Nodup.mem_erase_iff hnd).mp hmem).1 rfl
  have h1 : (stop_agent st aid).1 =
      { st with agents := setAgentStatus st.agents aid AgentStatus.PAUSED,
                active := st.active.erase aid } := by
    simp only [stop_agent, if_pos hactive]
  have h2 : (stop_agent st aid).2 = true := by
    simp only [stop_agent, if_pos hactive]
  refine ⟨h2, ?_, ?_, ?_⟩
  · rw [h1]
    exact hrm
  · rw [h1]
    simp only [get_agent_status]
    rw [if_neg hrm]
  · rw [h1]
    rw [lookupAgent_setAgentStatus]
    obtain ⟨v, hv⟩ := Option.isSome_iff_exists.mp hobj
    rw [hv]
    rfl

/-- Witness for C7_stop_agent_pauses_and_deregisters on a controller with
one active processing run. -/
theorem C7_stop_agent_witness :
    "a" ∈ (⟨[("a", AgentStatus.PROCESSING)], ["a"], []⟩ : PipelineState).active ∧
    ((stop_agent ⟨[("a", AgentStatus.PROCESSING)], ["a"], []⟩ "a").2 = true ∧
      "a" ∉ get_active_agents
        (stop_agent ⟨[("a", AgentStatus.PROCESSING)], ["a"], []⟩ "a").1 ∧
      get_agent_status
        (stop_agent ⟨[("a", AgentStatus.PROCESSING)], ["a"], []⟩ "a").1 "a" =
        none ∧
      lookupAgent
        (stop_agent ⟨[("a", AgentStatus.PROCESSING)], ["a"], []⟩ "a").1.agents
        "a" = some AgentStatus.PAUSED) :=
  ⟨by decide,
   C7_stop_agent_pauses_and_deregisters
     ⟨[("a", AgentStatus.PROCESSING)], ["a"], []⟩ "a" (by decide)
     (by decide) (by decide)⟩

/-- Claim C10.  `start_processing` is a total function of the execution
outcome (its body is wrapped in `try/except Exception`, so an orchestrator
exception never propagates): on a failure with message `e` it returns
`success = False` with the human-readable error string
`"Claims processing failed: " ++ e`, having appended a FAILED record
carrying that string to the history and removed the run's agent from the
active-run table; on success it returns `success = True` with the results
and appends a COMPLETED record. -/
theorem C10_start_processing_total (st : PipelineState)
    (aid sender : String) (outcome : ExecOutcome)
    (hfresh : aid ∉ st.active) :
    (∀ e, outcome = ExecOutcome.failure e →
      (start_processing st aid sender outcome).2.success = false ∧
      (start_processing st aid sender outcome).2.error =
        some ("Claims processing failed: " ++ e) ∧
      (start_processing st aid sender outcome).2.record.status = "FAILED" ∧
      (start_processing st aid sender outcome).2.record.error =
        some ("Claims processing failed: " ++ e) ∧
      (start_processing st aid sender outcome).1.processing_history =
        st.processing_history ++
          [(start_processing st aid sender outcome).2.record] ∧
      aid ∉ (start_processing st aid sender outcome).1.active) ∧
    (∀ results, outcome = ExecOutcome.success results →
      (start_processing st aid sender outcome).2.success = true ∧
      (start_processing st aid sender outcome).2.results = some results ∧
      (start_processing st aid sender outcome).2.record.status = "COMPLETED" ∧
      (start_processing st aid sender outcome).2.record.recommendation =
        results.overall_recommendation ∧
      (start_processing st aid sender outcome).1.processing_history =
        st.processing_history ++
          [(start_processing st aid sender outcome).2.record] ∧
      aid ∉ (start_processing st aid sender outcome).1.active) := by
  have herase : (st.active ++ [aid]).erase aid = st.active := by
    rw [List.erase_append_right _ hfresh]
    simp
  constructor
  · rintro e rfl
    refine ⟨rfl, rfl, rfl, rfl, rfl, ?_⟩
    simp only [start_processing, herase]
    exact hfresh
  · rintro results rfl
    refine ⟨rfl, rfl, rfl, rfl, rfl, ?_⟩
    simp only [start_processing, herase]
    exact hfresh

/-- Witness for C10_start_processing_total on a fresh controller and an
intake failure. -/
theorem C10_start_processing_witness :
    "a" ∉ ({} : PipelineState).active ∧
    ((start_processing {} "a" "s" (ExecOutcome.failure "boom")).2.success =
        false ∧
      (start_processing {} "a" "s" (ExecOutcome.failure "boom")).2.error =
        some ("Claims processing failed: " ++ "boom") ∧
      (start_processing {} "a" "s"
        (ExecOutcome.failure "boom")).2.record.status = "FAILED") :=
  ⟨by decide,
   by
    have h := (C10_start_processing_total {} "a" "s"
      (ExecOutcome.failure "boom") (by decide)).1 "boom" rfl
    exact ⟨h.1, h.2.1, h.2.2.1⟩⟩

/-- Claim C8, counterexample.  The wire message broadcast for a progress
update — built by `send_progress_update` from what `send_update` forwards
out of the `AgentUpdate` — carries no "status" key at all, even though
the update record it is built from has a status: the §3 ProgressEvent
schema field `status` is not preserved on the wire. -/
theorem C8_counterexample_status_missing :
    "status" ∉
      (broadcastMessageOfUpdate
        { agent_id := "a", status := AgentStatus.PROCESSING, stage := "s",
          message := "m", progressVal := 5, data := none, error := none }
        "2024-01-01T00:00:00").map Prod.fst := by
  decide

/-- Claim C8, amended.  Every broadcast progress message carries exactly
the keys type, agent_id (the run id), stage, message, progress, data
(payload), error and timestamp, each bound to the corresponding field of
the emitting update — but not the update's status, which is dropped by
the wire encoding. -/
theorem C8_amended_wire_fields (u : AgentUpdate) (ts : String) :
    (broadcastMessageOfUpdate u ts).map Prod.fst =
      ["type", "agent_id", "stage", "message", "progress", "data", "error",
        "timestamp"] ∧
    "status" ∉ (broadcastMessageOfUpdate u ts).map Prod.fst ∧
    (broadcastMessageOfUpdate u ts).lookup "agent_id" =
      some (JValue.jstr u.agent_id) ∧
    (broadcastMessageOfUpdate u ts).lookup "stage" =
      some (JValue.jstr u.stage) ∧
    (broadcastMessageOfUpdate u ts).lookup "message" =
      some (JValue.jstr u.message) ∧
    (broadcastMessageOfUpdate u ts).lookup "progress" =
      some (JValue.jnum u.progressVal) ∧
    (broadcastMessageOfUpdate u ts).lookup "data" =
      some (JValue.jobj (u.data.getD [])) ∧
    (broadcastMessageOfUpdate u ts).lookup "error" =
      some (jsonOfOptStr u.error) ∧
    (broadcastMessageOfUpdate u ts).lookup "timestamp" =
      some (JValue.jstr ts) := by
  refine ⟨rfl, ?_, rfl, rfl, rfl, rfl, rfl, rfl, rfl⟩
  intro hmem
  have h : (broadcastMessageOfUpdate u ts).map Prod.fst =
      ["type", "agent_id", "stage", "message", "progress", "data", "error",
        "timestamp"] := rfl
  rw [h] at hmem
  simp at hmem

/-- Claim C9, counterexample.  The source guards the error branch with
Python truthiness (`if error:`), so passing the non-null empty string as
the error argument does NOT set the unit's status to Failed: a
PROCESSING agent stays PROCESSING. -/
theorem C9_counterexample_empty_error_string :
    (send_update { initAgent "a" true with status := AgentStatus.PROCESSING }
        1 "stage" "msg" 5 (some "")).1.status ≠ AgentStatus.FAILED := by
  have h : (send_update
      { initAgent "a" true with status := AgentStatus.PROCESSING }
      1 "stage" "msg" 5 (some "")).1.status = AgentStatus.PROCESSING := rfl
  rw [h]
  intro hc
  cases hc

/-- Claim C9, amended.  For every `send_update` call whose error argument
is non-null and non-empty, the unit's status becomes FAILED and the error
is appended to the unit's error list before the progress event for the
call is emitted — the progress event (always the last event of the call
when a manager is present) already carries status FAILED; and subsequent
calls remain permitted (`send_update` is a total function of the agent
state, including FAILED states). -/
theorem C9_amended_error_forces_failed (st : AgentState) (now : Rat)
    (stage msg : String) (p : Rat) (e : String) (he : e ≠ "") :
    (send_update st now stage msg p (some e)).1.status = AgentStatus.FAILED ∧
    (send_update st now stage msg p (some e)).1.errors = st.errors ++ [e] ∧
    (st.hasManager = true →
      (send_update st now stage msg p (some e)).2.getLast? =
        some (Event.progressEvent st.agent_id AgentStatus.FAILED stage msg p
          (some e))) := by
  have ht : errIsTruthy (some e) = true := by
    simp [errIsTruthy, he]
  refine ⟨?_, ?_, ?_⟩
  · simp only [send_update, ht, if_true]
    split <;> rfl
  · simp only [send_update, ht, if_true, Option.getD_some]
    split <;> rfl
  · intro hm
    simp only [send_update, ht, if_true, hm]
    split
    · split
      · rfl
      · rfl
    · rfl

/-- Witness for C9_amended_error_forces_failed on a fresh agent and a
non-empty error string. -/
theorem C9_amended_witness :
    "boom" ≠ "" ∧
    ((send_update (initAgent "a" true) 1 "s" "m" 5 (some "boom")).1.status =
        AgentStatus.FAILED ∧
      (send_update (initAgent "a" true) 1 "s" "m" 5 (some "boom")).1.errors =
        (initAgent "a" true).errors ++ ["boom"] ∧
      ((initAgent "a" true).hasManager = true →
        (send_update (initAgent "a" true) 1 "s" "m" 5 (some "boom")).2.getLast? =
          some (Event.progressEvent (initAgent "a" true).agent_id
            AgentStatus.FAILED "s" "m" 5 (some "boom")))) :=
  ⟨by decide, C9_amended_error_forces_failed (initAgent "a" true) 1 "s" "m" 5
    "boom" (by decide)⟩

/-- A lower bound on the wall-clock readings of a call list can be
weakened. -/
theorem timesLB_anti (a b : Rat) (l : List AdvanceCall) (h : a ≤ b)
    (hl : timesLB b l = true) : timesLB a l = true := by
  cases l with
  | nil => rfl
  | cons c r =>
      simp only [timesLB] at hl ⊢
      by_cases hbc : b ≤ c.now
      · rw [if_pos hbc] at hl
        rw [if_pos (le_trans h hbc)]
        exact hl
      · rw [if_neg hbc] at hl
        cases hl

/-- A `send_update` call that repeats the current stage emits no
stage-completion event and leaves the stage clock untouched. -/
theorem send_update_same_stage (st : AgentState) (now : Rat)
    (stage msg : String) (p : Rat) (err : Option String)
    (hst : st.current_stage = stage) :
    (send_update st now stage msg p err).1.current_stage = stage ∧
    (send_update st now stage msg p err).1.stage_start_time =
      st.stage_start_time ∧
    (send_update st now stage msg p err).1.hasManager = st.hasManager ∧
    (send_update st now stage msg p err).2 =
      (if st.hasManager then
        [Event.progressEvent st.agent_id
          (if errIsTruthy err then AgentStatus.FAILED else st.status)
          stage msg p err]
      else []) := by
  by_cases her : errIsTruthy err = true <;>
    simp [send_update, her, hst]

/-- A `send_update` call that changes the stage, from a state whose stage
clock is set (and truthy) with a manager present, emits exactly the
stage-completion event for the previous stage — with
`duration = now - stage_start_time` and `success = not error` — followed
by the progress event for the call, and resets the stage clock to `now`. -/
theorem send_update_transition (st : AgentState) (now : Rat)
    (stage msg : String) (p : Rat) (err : Option String) (t : Rat)
    (hst : st.current_stage ≠ stage) (hstart : st.stage_start_time = some t)
    (ht : ¬ t = 0) (hm : st.hasManager = true) :
    (send_update st now stage msg p err).1.current_stage = stage ∧
    (send_update st now stage msg p err).1.stage_start_time = some now ∧
    (send_update st now stage msg p err).1.hasManager = true ∧
    (send_update st now stage msg p err).2 =
      [Event.stageCompletion st.agent_id st.current_stage (now - t)
        (!errIsTruthy err),
       Event.progressEvent st.agent_id
         (if errIsTruthy err then AgentStatus.FAILED else st.status)
         stage msg p err] := by
  by_cases her : errIsTruthy err = true <;>
    simp [send_update, her, hst, hstart, timeIsTruthy, ht, hm]

/-- A `send_update` call that changes the stage, from a state whose stage
clock is unset (a fresh agent), emits no stage-completion event but does
start the stage clock at `now`. -/
theorem send_update_transition_fresh (st : AgentState) (now : Rat)
    (stage msg : String) (p : Rat) (err : Option String)
    (hst : st.current_stage ≠ stage) (hstart : st.stage_start_time = none) :
    (send_update st now stage msg p err).1.current_stage = stage ∧
    (send_update st now stage msg p err).1.stage_start_time = some now ∧
    (send_update st now stage msg p err).1.hasManager = st.hasManager ∧
    (send_update st now stage msg p err).2 =
      (if st.hasManager then
        [Event.progressEvent st.agent_id
          (if errIsTruthy err then AgentStatus.FAILED else st.status)
          stage msg p err]
      else []) := by
  by_cases her : errIsTruthy err = true <;>
    simp [send_update, her, hst, hstart, timeIsTruthy]

/-- Over any sequence of `send_update` calls starting from a state whose
stage clock is already running (set to a positive instant no later than
every reading in the sequence) with a manager present, the number of
stage-completion events emitted equals the number of stage changes along
(current stage, then call stages), and every emitted stage-completion
duration is non-negative. -/
theorem runAdvances_sc_spec (calls : List AdvanceCall) :
    ∀ (st : AgentState) (t : Rat), st.hasManager = true →
      st.stage_start_time = some t → 0 < t → timesLB t calls = true →
      (((runAdvances st calls).2.filter isStageCompletion).length =
        adjChanges (st.current_stage :: calls.map (fun c => c.stage))) ∧
      (∀ a s d su, Event.stageCompletion a s d su ∈ (runAdvances st calls).2 →
        0 ≤ d) := by
  induction calls with
  | nil =>
      intro st t _ _ _ _
      refine ⟨by simp [runAdvances, adjChanges], ?_⟩
      intro a s d su h
      simp [runAdvances] at h
  | cons c rest ih =>
      intro st t hm hstart hpos hlb
      have hlb1 : t ≤ c.now ∧ timesLB c.now rest = true := by
        simp only [timesLB] at hlb
        by_cases h : t ≤ c.now
        · exact ⟨h, by rwa [if_pos h] at hlb⟩
        · rw [if_neg h] at hlb
          cases hlb
      have hsplit : (runAdvances st (c :: rest)).2 =
          (send_update st c.now c.stage c.message c.progressArg c.error).2 ++
          (runAdvances
            (send_update st c.now c.stage c.message c.progressArg c.error).1
            rest).2 := rfl
      by_cases hst : st.current_stage = c.stage
      · obtain ⟨hcs, hss, hhm, hevs⟩ :=
          send_update_same_stage st c.now c.stage c.message c.progressArg
            c.error hst
        have ihr := ih
          (send_update st c.now c.stage c.message c.progressArg c.error).1 t
          (by rw [hhm]; exact hm) (by rw [hss]; exact hstart) hpos
          (timesLB_anti t c.now rest hlb1.1 hlb1.2)
        rw [hm] at hevs
        constructor
        · rw [hsplit, List.filter_append, List.length_append, hevs]
          have h0 : (List.filter isStageCompletion
              [Event.progressEvent st.agent_id
                (if errIsTruthy c.error then AgentStatus.FAILED else st.status)
                c.stage c.message c.progressArg c.error]).length = 0 := by
            simp [isStageCompletion]
          rw [if_pos rfl, h0, ihr.1, hcs]
          simp [adjChanges, hst]
        · intro a s d su hmem
          rw [hsplit] at hmem
          rcases List.mem_append.mp hmem with hmem1 | hmem2
          · rw [hevs] at hmem1
            simp at hmem1
          · exact ihr.2 a s d su hmem2
      · obtain ⟨hcs, hss, hhm, hevs⟩ :=
          send_update_transition st c.now c.stage c.message c.progressArg
            c.error t hst hstart (by exact ne_of_gt hpos) hm
        have ihr := ih
          (send_update st c.now c.stage c.message c.progressArg c.error).1
          c.now hhm hss (lt_of_lt_of_le hpos hlb1.1) hlb1.2
        constructor
        · rw [hsplit, List.filter_append, List.length_append, hevs]
          have h1 : (List.filter isStageCompletion
              [Event.stageCompletion st.agent_id st.current_stage (c.now - t)
                 (!errIsTruthy c.error),
               Event.progressEvent st.agent_id
                 (if errIsTruthy c.error then AgentStatus.FAILED else st.status)
                 c.stage c.message c.progressArg c.error]).length = 1 := by
            simp [isStageCompletion]
          rw [h1, ihr.1, hcs]
          simp [adjChanges, hst]
        · intro a s d su hmem
          rw [hsplit] at hmem
          rcases List.mem_append.mp hmem with hmem1 | hmem2
          · rw [hevs] at hmem1
            rcases List.mem_cons.mp hmem1 with heq | hmem1'
            · cases heq
              exact sub_nonneg.mpr hlb1.1
            · simp at hmem1'
          · exact ihr.2 a s d su hmem2

/-- Claim C4, counterexample.  On a fresh unit, the two calls
advance(now=1, "a", error=None); advance(now=2, "b", error=SOME "")
produce exactly one stage-completion event, and it carries
`success = true` even though the second call's error argument is not
None: the source computes `success=not error` under Python truthiness,
so a non-null empty-string error still yields a successful completion
event, refuting the claimed `success = (error is None)`. -/
theorem C4_counterexample_success_flag :
    ((runAdvances (initAgent "x" true)
        [⟨1, "a", "m", 1, none⟩, ⟨2, "b", "m", 2, some ""⟩]).2.filter
      isStageCompletion) = [Event.stageCompletion "x" "a" (2 - 1) true] ∧
    (some "" : Option String) ≠ none := by
  constructor
  · rfl
  · decide

/-- Claim C4, amended.  For every sequence of `advance` calls on a fresh
stage-tracking unit (manager present, non-empty stage names, wall-clock
readings positive and non-decreasing): the number of emitted
stage-completion events equals the number of stage changes between
consecutive calls of the sequence; every emitted stage-completion
duration is non-negative; and each stage transition from a running stage
clock emits the completion event for the previous stage with
`duration = now - stage_start_time` and `success = (error is falsy)`
(None or the empty string), then resets the stage clock to `now`. -/
theorem C4_amended_stage_completions (aid : String) (t0 : Rat)
    (calls : List AdvanceCall) (hpos : 0 < t0)
    (hlb : timesLB t0 calls = true) (hne : ∀ c ∈ calls, c.stage ≠ "") :
    (((runAdvances (initAgent aid true) calls).2.filter
        isStageCompletion).length =
      adjChanges (calls.map (fun c => c.stage))) ∧
    (∀ a s d su, Event.stageCompletion a s d su ∈
      (runAdvances (initAgent aid true) calls).2 → 0 ≤ d) ∧
    (∀ (st : AgentState) (now : Rat) (stage msg : String) (p : Rat)
        (err : Option String) (t : Rat), st.hasManager = true →
      st.current_stage ≠ stage → st.stage_start_time = some t → ¬ t = 0 →
      (send_update st now stage msg p err).2 =
        [Event.stageCompletion st.agent_id st.current_stage (now - t)
          (!errIsTruthy err),
         Event.progressEvent st.agent_id
           (if errIsTruthy err then AgentStatus.FAILED else st.status)
           stage msg p err] ∧
      (send_update st now stage msg p err).1.stage_start_time = some now) := by
  have main :
      (((runAdvances (initAgent aid true) calls).2.filter
          isStageCompletion).length =
        adjChanges (calls.map (fun c => c.stage))) ∧
      (∀ a s d su, Event.stageCompletion a s d su ∈
        (runAdvances (initAgent aid true) calls).2 → 0 ≤ d) := by
    cases calls with
    | nil =>
        refine ⟨by simp [runAdvances, adjChanges], ?_⟩
        intro a s d su h
        simp [runAdvances] at h
    | cons c rest =>
        have hne1 : c.stage ≠ "" := hne c (List.mem_cons_self c rest)
        have hst : (initAgent aid true).current_stage ≠ c.stage := by
          intro h
          exact hne1 h.symm
        have hlb1 : t0 ≤ c.now ∧ timesLB c.now rest = true := by
          simp only [timesLB] at hlb
          by_cases h : t0 ≤ c.now
          · exact ⟨h, by rwa [if_pos h] at hlb⟩
          · rw [if_neg h] at hlb
            cases hlb
        obtain ⟨hcs, hss, hhm, hevs⟩ :=
          send_update_transition_fresh (initAgent aid true) c.now c.stage
            c.message c.progressArg c.error hst rfl
        rw [if_pos (show (initAgent aid true).hasManager = true from rfl)]
          at hevs
        have ihr := runAdvances_sc_spec rest
          (send_update (initAgent aid true) c.now c.stage c.message
            c.progressArg c.error).1 c.now (hhm.trans rfl) hss
          (lt_of_lt_of_le hpos hlb1.1) hlb1.2
        have hsplit : (runAdvances (initAgent aid true) (c :: rest)).2 =
            (send_update (initAgent aid true) c.now c.stage c.message
              c.progressArg c.error).2 ++
            (runAdvances
              (send_update (initAgent aid true) c.now c.stage c.message
                c.progressArg c.error).1 rest).2 := rfl
        constructor
        · rw [hsplit, List.filter_append, List.length_append, hevs]
          have h0 : (List.filter isStageCompletion
              [Event.progressEvent (initAgent aid true).agent_id
                (if errIsTruthy c.error then AgentStatus.FAILED
                 else (initAgent aid true).status)
                c.stage c.message c.progressArg c.error]).length = 0 := by
            simp [isStageCompletion]
          rw [h0, ihr.1, hcs]
          simp
        · intro a s d su hmem
          rw [hsplit] at hmem
          rcases List.mem_append.mp hmem with hmem1 | hmem2
          · rw [hevs] at hmem1
            simp at hmem1
          · exact ihr.2 a s d su hmem2
  refine ⟨main.1, main.2, ?_⟩
  intro st now stage msg p err t hm hst hstart ht
  obtain ⟨h1, h2, h3, h4⟩ :=
    send_update_transition st now stage msg p err t hst hstart ht hm
  exact ⟨h4, h2⟩

/-- Witness for C4_amended_stage_completions on a four-call sequence with
two stage changes (a to b, then b to c), the last call failing. -/
theorem C4_amended_witness :
    0 < (1 : Rat) ∧
    timesLB 1 [(⟨1, "a", "m1", 10, none⟩ : AdvanceCall),
      ⟨2, "b", "m2", 20, none⟩, ⟨3, "b", "m3", 30, none⟩,
      ⟨4, "c", "m4", 40, some "x"⟩] = true ∧
    (∀ c ∈ [(⟨1, "a", "m1", 10, none⟩ : AdvanceCall),
      ⟨2, "b", "m2", 20, none⟩, ⟨3, "b", "m3", 30, none⟩,
      ⟨4, "c", "m4", 40, some "x"⟩], c.stage ≠ "") ∧
    ((((runAdvances (initAgent "a" true)
        [(⟨1, "a", "m1", 10, none⟩ : AdvanceCall),
         ⟨2, "b", "m2", 20, none⟩, ⟨3, "b", "m3", 30, none⟩,
         ⟨4, "c", "m4", 40, some "x"⟩]).2.filter
          isStageCompletion).length =
      adjChanges ([(⟨1, "a", "m1", 10, none⟩ : AdvanceCall),
        ⟨2, "b", "m2", 20, none⟩, ⟨3, "b", "m3", 30, none⟩,
        ⟨4, "c", "m4", 40, some "x"⟩].map (fun c => c.stage))) ∧
    (∀ a s d su, Event.stageCompletion a s d su ∈
      (runAdvances (initAgent "a" true)
        [(⟨1, "a", "m1", 10, none⟩ : AdvanceCall),
         ⟨2, "b", "m2", 20, none⟩, ⟨3, "b", "m3", 30, none⟩,
         ⟨4, "c", "m4", 40, some "x"⟩]).2 → 0 ≤ d) ∧
    (∀ (st : AgentState) (now : Rat) (stage msg : String) (p : Rat)
        (err : Option String) (t : Rat), st.hasManager = true →
      st.current_stage ≠ stage → st.stage_start_time = some t → ¬ t = 0 →
      (send_update st now stage msg p err).2 =
        [Event.stageCompletion st.agent_id st.current_stage (now - t)
          (!errIsTruthy err),
         Event.progressEvent st.agent_id
           (if errIsTruthy err then AgentStatus.FAILED else st.status)
           stage msg p err] ∧
      (send_update st now stage msg p err).1.stage_start_time = some now)) :=
  ⟨by decide, by decide, by decide,
   C4_amended_stage_completions "a" 1
     [(⟨1, "a", "m1", 10, none⟩ : AdvanceCall), ⟨2, "b", "m2", 20, none⟩,
      ⟨3, "b", "m3", 30, none⟩, ⟨4, "c", "m4", 40, some "x"⟩]
     (by decide) (by decide) (by decide)⟩

/-- Appending a non-empty suffix changes a string. -/
theorem string_append_ne_self (s a : String) (ha : a.length ≠ 0) :
    s ++ a ≠ s := by
  intro h
  have hl := congrArg String.length h
  rw [String.length_append] at hl
  omega

/-- Appending different suffixes to the same string gives different
strings. -/
theorem string_append_ne_append (s a b : String) (hab : a ≠ b) :
    s ++ a ≠ s ++ b := by
  intro h
  apply hab
  have hd := congrArg String.data h
  rw [String.data_append, String.data_append] at hd
  exact String.ext (List.append_cancel_left hd)

/-- The document sub-agent id differs from the master id. -/
theorem docId_ne_self (aid : String) : docId aid ≠ aid :=
  string_append_ne_self aid "_document" (by decide)

/-- The analysis sub-agent id differs from the master id. -/
theorem analysisId_ne_self (aid : String) : analysisId aid ≠ aid :=
  string_append_ne_self aid "_analysis" (by decide)

/-- The report sub-agent id differs from the master id. -/
theorem reportId_ne_self (aid : String) : reportId aid ≠ aid :=
  string_append_ne_self aid "_report" (by decide)

/-- The document and analysis sub-agent ids differ. -/
theorem docId_ne_analysisId (aid : String) : docId aid ≠ analysisId aid :=
  string_append_ne_append aid "_document" "_analysis" (by decide)

/-- The document and report sub-agent ids differ. -/
theorem docId_ne_reportId (aid : String) : docId aid ≠ reportId aid :=
  string_append_ne_append aid "_document" "_report" (by decide)

/-- The analysis and report sub-agent ids differ. -/
theorem analysisId_ne_reportId (aid : String) : analysisId aid ≠ reportId aid :=
  string_append_ne_append aid "_analysis" "_report" (by decide)

/-- Filtering a trace by agent id distributes over concatenation. -/
theorem eventsOf_append (l1 l2 : List PE) (id : String) :
    eventsOf (l1 ++ l2) id = eventsOf l1 id ++ eventsOf l2 id := by
  simp [eventsOf]

/-- Filtering a single-id block by an agent id keeps the whole block or
none of it. -/
theorem eventsOf_allSame (l : List PE) (b : String)
    (h : ∀ ev ∈ l, ev.agent_id = b) (id : String) :
    eventsOf l id = if b = id then l else [] := by
  induction l with
  | nil => simp [eventsOf]
  | cons e rest ih =>
      have he : e.agent_id = b := h e (List.mem_cons_self e rest)
      have hr : ∀ ev ∈ rest, ev.agent_id = b := fun ev hev =>
        h ev (List.mem_cons_of_mem e hev)
      have hrec := ih hr
      by_cases hb : b = id
      · have heq : (e.agent_id == id) = true := beq_iff_eq.mpr (he.trans hb)
        simp only [eventsOf] at hrec ⊢
        rw [List.filter_cons_of_pos, hrec, if_pos hb, if_pos hb]
        exact heq
      · have hne : (e.agent_id == id) = false := by
          rw [he]
          exact beq_eq_false_iff_ne.mpr hb
        simp only [eventsOf] at hrec ⊢
        rw [List.filter_cons_of_neg, hrec, if_neg hb, if_neg hb]
        simp [hne]

/-- Every event of a sub-agent trace carries that sub-agent's id. -/
theorem subAgentTrace_ids (b : String) (ws : List (String × String × Rat))
    (dm : String) (f : Option Nat) (em : String) :
    ∀ ev ∈ subAgentTrace b ws dm f em, ev.agent_id = b := by
  intro ev hev
  cases f with
  | none =>
      simp only [subAgentTrace, List.mem_append] at hev
      rcases hev with h | h
      · simp only [checkpointEvents, List.mem_map] at h
        obtain ⟨c, _, hc⟩ := h
        rw [← hc]
      · rw [List.mem_singleton.mp h]
  | some k =>
      simp only [subAgentTrace, List.mem_append] at hev
      rcases hev with h | h
      · simp only [checkpointEvents, List.mem_map] at h
        obtain ⟨c, _, hc⟩ := h
        rw [← hc]
      · rw [List.mem_singleton.mp h]

/-- Progress values of a failing sub-agent trace, independent of the
agent id and message strings. -/
theorem subAgentTrace_map_progress_fail (b : String)
    (ws : List (String × String × Rat)) (dm em : String) (k : Nat) :
    (subAgentTrace b ws dm (some k) em).map (fun ev => ev.progressVal) =
      (ws.take k).map (fun c => c.2.2) ++ [lastProgressOf (ws.take k)] := by
  simp only [subAgentTrace, checkpointEvents, List.map_append, List.map_map,
    List.map_cons, List.map_nil]
  rfl

/-- Progress values of a successful sub-agent trace. -/
theorem subAgentTrace_map_progress_ok (b : String)
    (ws : List (String × String × Rat)) (dm em : String) :
    (subAgentTrace b ws dm none em).map (fun ev => ev.progressVal) =
      ws.map (fun c => c.2.2) ++ [100] := by
  simp only [subAgentTrace, checkpointEvents, List.map_append, List.map_map,
    List.map_cons, List.map_nil]
  rfl

/-- Statuses of a failing sub-agent trace. -/
theorem subAgentTrace_map_status_fail (b : String)
    (ws : List (String × String × Rat)) (dm em : String) (k : Nat) :
    (subAgentTrace b ws dm (some k) em).map (fun ev => ev.status) =
      (ws.take k).map (fun _ => AgentStatus.PROCESSING) ++
        [AgentStatus.FAILED] := by
  simp only [subAgentTrace, checkpointEvents, List.map_append, List.map_map,
    List.map_cons, List.map_nil]
  rfl

/-- Statuses of a successful sub-agent trace. -/
theorem subAgentTrace_map_status_ok (b : String)
    (ws : List (String × String × Rat)) (dm em : String) :
    (subAgentTrace b ws dm none em).map (fun ev => ev.status) =
      ws.map (fun _ => AgentStatus.PROCESSING) ++ [AgentStatus.COMPLETED] := by
  simp only [subAgentTrace, checkpointEvents, List.map_append, List.map_map,
    List.map_cons, List.map_nil]
  rfl

/-- Shape check for every realisable failing document trace. -/
theorem doc_fail_shape_ok : ∀ k, k < 8 →
    nondecRats ((docWorkStages.take k).map (fun c => c.2.2) ++
      [lastProgressOf (docWorkStages.take k)]) = true ∧
    terminalOnlyLast ((docWorkStages.take k).map
      (fun _ => AgentStatus.PROCESSING) ++ [AgentStatus.FAILED]) = true := by
  decide

/-- Shape check for every realisable failing analysis trace. -/
theorem analysis_fail_shape_ok : ∀ k, k < 10 →
    nondecRats ((analysisWorkStages.take k).map (fun c => c.2.2) ++
      [lastProgressOf (analysisWorkStages.take k)]) = true ∧
    terminalOnlyLast ((analysisWorkStages.take k).map
      (fun _ => AgentStatus.PROCESSING) ++ [AgentStatus.FAILED]) = true := by
  decide

/-- Shape check for every realisable failing report trace. -/
theorem report_fail_shape_ok : ∀ k, k < 7 →
    nondecRats ((reportWorkStages.take k).map (fun c => c.2.2) ++
      [lastProgressOf (reportWorkStages.take k)]) = true ∧
    terminalOnlyLast ((reportWorkStages.take k).map
      (fun _ => AgentStatus.PROCESSING) ++ [AgentStatus.FAILED]) = true := by
  decide

/-- Shape check for the successful document trace. -/
theorem doc_ok_shape_ok :
    nondecRats (docWorkStages.map (fun c => c.2.2) ++ [100]) = true ∧
    terminalOnlyLast (docWorkStages.map (fun _ => AgentStatus.PROCESSING) ++
      [AgentStatus.COMPLETED]) = true := by
  decide

/-- Shape check for the successful analysis trace. -/
theorem analysis_ok_shape_ok :
    nondecRats (analysisWorkStages.map (fun c => c.2.2) ++ [100]) = true ∧
    terminalOnlyLast (analysisWorkStages.map
      (fun _ => AgentStatus.PROCESSING) ++ [AgentStatus.COMPLETED]) = true := by
  decide

/-- Shape check for the successful report trace. -/
theorem report_ok_shape_ok :
    nondecRats (reportWorkStages.map (fun c => c.2.2) ++ [100]) = true ∧
    terminalOnlyLast (reportWorkStages.map (fun _ => AgentStatus.PROCESSING) ++
      [AgentStatus.COMPLETED]) = true := by
  decide

/-- A two-event master block carries the master id. -/
theorem mem_pair_mProg (aid s1 m1 : String) (p1 : Rat) (s2 m2 : String)
    (p2 : Rat) :
    ∀ ev ∈ [mProg aid s1 m1 p1, mProg aid s2 m2 p2], ev.agent_id = aid := by
  intro ev h
  rcases List.mem_cons.mp h with h1 | h2
  · rw [h1]
    rfl
  · rw [List.mem_singleton.mp h2]
    rfl

/-- A one-event master block carries the master id. -/
theorem mem_single_mProg (aid s m : String) (p : Rat) :
    ∀ ev ∈ [mProg aid s m p], ev.agent_id = aid := by
  intro ev h
  rw [List.mem_singleton.mp h]
  rfl

/-- A master error-event block carries the master id. -/
theorem mem_single_mErr (aid : String) (p : Rat) (msg : String) :
    ∀ ev ∈ [masterErrEvent aid p msg], ev.agent_id = aid := by
  intro ev h
  rw [List.mem_singleton.mp h]
  rfl

/-- The master's finalization and completion events carry the master id. -/
theorem mem_m5m6 (aid : String) :
    ∀ ev ∈ [mProg aid "finalization" "Finalizing results" 95,
      ({ agent_id := aid, status := AgentStatus.COMPLETED,
         stage := "completion",
         message := "Claims processing completed successfully",
         progressVal := 100, error := none } : PE)], ev.agent_id = aid := by
  intro ev h
  rcases List.mem_cons.mp h with h1 | h2
  · rw [h1]
    rfl
  · rw [List.mem_singleton.mp h2]

/-- Claim C5.  For every run of the master agent (any outcome: success,
or a realisable failure of the document, analysis or report phase) and
every agent id, the progress values of the ProgressEvents emitted for
that id form a non-decreasing sequence, and any terminal-status event
(COMPLETED or FAILED) for that id is the last event emitted for it — no
further events for that id follow a terminal event. -/
theorem C5_progress_monotone_until_terminal (aid : String)
    (o : MasterOutcome) (hv : outcomeValid o = true) (id : String) :
    nondecRats ((eventsOf (masterRun aid o) id).map
      (fun ev => ev.progressVal)) = true ∧
    terminalOnlyLast ((eventsOf (masterRun aid o) id).map
      (fun ev => ev.status)) = true := by
  cases o with
  | ok =>
      have htr : masterRun aid MasterOutcome.ok =
          [mProg aid "initialization"
            "Initializing master claims processing agent" 2,
           mProg aid "document_processing"
            "Starting document processing phase" 5] ++
          subAgentTrace (docId aid) docWorkStages
            "Document processing completed successfully" none "" ++
          [mProg aid "claims_analysis" "Starting claims analysis phase" 35] ++
          subAgentTrace (analysisId aid) analysisWorkStages
            "Claims analysis completed successfully" none "" ++
          [mProg aid "report_generation"
            "Starting report generation phase" 70] ++
          subAgentTrace (reportId aid) reportWorkStages
            "Report generated successfully" none "" ++
          [mProg aid "finalization" "Finalizing results" 95,
           { agent_id := aid, status := AgentStatus.COMPLETED,
             stage := "completion",
             message := "Claims processing completed successfully",
             progressVal := 100, error := none }] := rfl
      rw [htr]
      simp only [eventsOf_append]
      rw [eventsOf_allSame _ aid (mem_pair_mProg aid _ _ _ _ _ _) id,
        eventsOf_allSame _ (docId aid)
          (subAgentTrace_ids (docId aid) docWorkStages _ _ _) id,
        eventsOf_allSame _ aid (mem_single_mProg aid _ _ _) id,
        eventsOf_allSame _ (analysisId aid)
          (subAgentTrace_ids (analysisId aid) analysisWorkStages _ _ _) id,
        eventsOf_allSame _ aid (mem_single_mProg aid _ _ _) id,
        eventsOf_allSame _ (reportId aid)
          (subAgentTrace_ids (reportId aid) reportWorkStages _ _ _) id,
        eventsOf_allSame _ aid (mem_m5m6 aid) id]
      by_cases h1 : aid = id
      · have hd : ¬ (docId aid = id) := fun hc =>
          docId_ne_self aid (hc.trans h1.symm)
        have ha : ¬ (analysisId aid = id) := fun hc =>
          analysisId_ne_self aid (hc.trans h1.symm)
        have hr : ¬ (reportId aid = id) := fun hc =>
          reportId_ne_self aid (hc.trans h1.symm)
        rw [if_pos h1, if_neg hd, if_pos h1, if_neg ha, if_pos h1,
          if_neg hr, if_pos h1]
        constructor
        · simp only [List.append_nil, List.nil_append, List.map_append,
            List.map_cons, List.map_nil, mProg]
          decide
        · simp only [List.append_nil, List.nil_append, List.map_append,
            List.map_cons, List.map_nil, mProg]
          decide
      · by_cases h2 : docId aid = id
        · have ha : ¬ (analysisId aid = id) := fun hc =>
            (docId_ne_analysisId aid).symm (hc.trans h2.symm)
          have hr : ¬ (reportId aid = id) := fun hc =>
            (docId_ne_reportId aid).symm (hc.trans h2.symm)
          rw [if_neg h1, if_pos h2, if_neg h1, if_neg ha, if_neg h1,
            if_neg hr, if_neg h1]
          simp only [List.append_nil, List.nil_append]
          constructor
          · rw [subAgentTrace_map_progress_ok]
            exact doc_ok_shape_ok.1
          · rw [subAgentTrace_map_status_ok]
            exact doc_ok_shape_ok.2
        · by_cases h3 : analysisId aid = id
          · have hr : ¬ (reportId aid = id) := fun hc =>
              (analysisId_ne_reportId aid).symm (hc.trans h3.symm)
            rw [if_neg h1, if_neg h2, if_neg h1, if_pos h3, if_neg h1,
              if_neg hr, if_neg h1]
            simp only [List.append_nil, List.nil_append]
            constructor
            · rw [subAgentTrace_map_progress_ok]
              exact analysis_ok_shape_ok.1
            · rw [subAgentTrace_map_status_ok]
              exact analysis_ok_shape_ok.2
          · by_cases h4 : reportId aid = id
            · rw [if_neg h1, if_neg h2, if_neg h1, if_neg h3, if_neg h1,
                if_pos h4, if_neg h1]
              simp only [List.append_nil, List.nil_append]
              constructor
              · rw [subAgentTrace_map_progress_ok]
                exact report_ok_shape_ok.1
              · rw [subAgentTrace_map_status_ok]
                exact report_ok_shape_ok.2
            · rw [if_neg h1, if_neg h2, if_neg h1, if_neg h3, if_neg h1,
                if_neg h4, if_neg h1]
              exact ⟨rfl, rfl⟩
  | failDoc k e =>
      have h7 : docWorkStages.length = 7 := rfl
      simp only [outcomeValid, Bool.and_eq_true, decide_eq_true_eq, h7] at hv
      obtain ⟨hk1, hk7⟩ := hv
      have htr : masterRun aid (MasterOutcome.failDoc k e) =
          [mProg aid "initialization"
            "Initializing master claims processing agent" 2,
           mProg aid "document_processing"
            "Starting document processing phase" 5] ++
          subAgentTrace (docId aid) docWorkStages
            "Document processing completed successfully" (some k)
            ("Document processing failed: " ++ e) ++
          [masterErrEvent aid 5
            ("Master agent execution failed: Document processing failed: "
              ++ e)] := rfl
      rw [htr]
      simp only [eventsOf_append]
      rw [eventsOf_allSame _ aid (mem_pair_mProg aid _ _ _ _ _ _) id,
        eventsOf_allSame _ (docId aid)
          (subAgentTrace_ids (docId aid) docWorkStages _ _ _) id,
        eventsOf_allSame _ aid (mem_single_mErr aid _ _) id]
      by_cases h1 : aid = id
      · have hd : ¬ (docId aid = id) := fun hc =>
          docId_ne_self aid (hc.trans h1.symm)
        rw [if_pos h1, if_neg hd, if_pos h1]
        constructor
        · simp only [List.append_nil, List.nil_append, List.map_append,
            List.map_cons, List.map_nil, mProg, masterErrEvent]
          decide
        · simp only [List.append_nil, List.nil_append, List.map_append,
            List.map_cons, List.map_nil, mProg, masterErrEvent]
          decide
      · by_cases h2 : docId aid = id
        · rw [if_neg h1, if_pos h2, if_neg h1]
          simp only [List.append_nil, List.nil_append]
          constructor
          · rw [subAgentTrace_map_progress_fail]
            exact (doc_fail_shape_ok k (by omega)).1
          · rw [subAgentTrace_map_status_fail]
            exact (doc_fail_shape_ok k (by omega)).2
        · rw [if_neg h1, if_neg h2, if_neg h1]
          exact ⟨rfl, rfl⟩
  | failAnalysis k e =>
      have h9 : analysisWorkStages.length = 9 := rfl
      simp only [outcomeValid, Bool.and_eq_true, decide_eq_true_eq, h9] at hv
      obtain ⟨hk1, hk9⟩ := hv
      have htr : masterRun aid (MasterOutcome.failAnalysis k e) =
          [mProg aid "initialization"
            "Initializing master claims processing agent" 2,
           mProg aid "document_processing"
            "Starting document processing phase" 5] ++
          subAgentTrace (docId aid) docWorkStages
            "Document processing completed successfully" none "" ++
          [mProg aid "claims_analysis" "Starting claims analysis phase" 35] ++
          subAgentTrace (analysisId aid) analysisWorkStages
            "Claims analysis completed successfully" (some k)
            ("Claims analysis failed: " ++ e) ++
          [masterErrEvent aid 35
            ("Master agent execution failed: Claims analysis failed: "
              ++ e)] := rfl
      rw [htr]
      simp only [eventsOf_append]
      rw [eventsOf_allSame _ aid (mem_pair_mProg aid _ _ _ _ _ _) id,
        eventsOf_allSame _ (docId aid)
          (subAgentTrace_ids (docId aid) docWorkStages _ _ _) id,
        eventsOf_allSame _ aid (mem_single_mProg aid _ _ _) id,
        eventsOf_allSame _ (analysisId aid)
          (subAgentTrace_ids (analysisId aid) analysisWorkStages _ _ _) id,
        eventsOf_allSame _ aid (mem_single_mErr aid _ _) id]
      by_cases h1 : aid = id
      · have hd : ¬ (docId aid = id) := fun hc =>
          docId_ne_self aid (hc.trans h1.symm)
        have ha : ¬ (analysisId aid = id) := fun hc =>
          analysisId_ne_self aid (hc.trans h1.symm)
        rw [if_pos h1, if_neg hd, if_pos h1, if_neg ha, if_pos h1]
        constructor
        · simp only [List.append_nil, List.nil_append, List.map_append,
            List.map_cons, List.map_nil, mProg, masterErrEvent]
          decide
        · simp only [List.append_nil, List.nil_append, List.map_append,
            List.map_cons, List.map_nil, mProg, masterErrEvent]
          decide
      · by_cases h2 : docId aid = id
        · have ha : ¬ (analysisId aid = id) := fun hc =>
            (docId_ne_analysisId aid).symm (hc.trans h2.symm)
          rw [if_neg h1, if_pos h2, if_neg h1, if_neg ha, if_neg h1]
          simp only [List.append_nil, List.nil_append]
          constructor
          · rw [subAgentTrace_map_progress_ok]
            exact doc_ok_shape_ok.1
          · rw [subAgentTrace_map_status_ok]
            exact doc_ok_shape_ok.2
        · by_cases h3 : analysisId aid = id
          · rw [if_neg h1, if_neg h2, if_neg h1, if_pos h3, if_neg h1]
            simp only [List.append_nil, List.nil_append]
            constructor
            · rw [subAgentTrace_map_progress_fail]
              exact (analysis_fail_shape_ok k (by omega)).1
            · rw [subAgentTrace_map_status_fail]
              exact (analysis_fail_shape_ok k (by omega)).2
          · rw [if_neg h1, if_neg h2, if_neg h1, if_neg h3, if_neg h1]
            exact ⟨rfl, rfl⟩
  | failReport k e =>
      have h6 : reportWorkStages.length = 6 := rfl
      simp only [outcomeValid, Bool.and_eq_true, decide_eq_true_eq, h6] at hv
      obtain ⟨hk1, hk6⟩ := hv
      have htr : masterRun aid (MasterOutcome.failReport k e) =
          [mProg aid "initialization"
            "Initializing master claims processing agent" 2,
           mProg aid "document_processing"
            "Starting document processing phase" 5] ++
          subAgentTrace (docId aid) docWorkStages
            "Document processing completed successfully" none "" ++
          [mProg aid "claims_analysis" "Starting claims analysis phase" 35] ++
          subAgentTrace (analysisId aid) analysisWorkStages
            "Claims analysis completed successfully" none "" ++
          [mProg aid "report_generation"
            "Starting report generation phase" 70] ++
          subAgentTrace (reportId aid) reportWorkStages
            "Report generated successfully" (some k)
            ("Report generation failed: " ++ e) ++
          [masterErrEvent aid 70
            ("Master agent execution failed: Report generation failed: "
              ++ e)] := rfl
      rw [htr]
      simp only [eventsOf_append]
      rw [eventsOf_allSame _ aid (mem_pair_mProg aid _ _ _ _ _ _) id,
        eventsOf_allSame _ (docId aid)
          (subAgentTrace_ids (docId aid) docWorkStages _ _ _) id,
        eventsOf_allSame _ aid (mem_single_mProg aid _ _ _) id,
        eventsOf_allSame _ (analysisId aid)
          (subAgentTrace_ids (analysisId aid) analysisWorkStages _ _ _) id,
        eventsOf_allSame _ aid (mem_single_mProg aid _ _ _) id,
        eventsOf_allSame _ (reportId aid)
          (subAgentTrace_ids (reportId aid) reportWorkStages _ _ _) id,
        eventsOf_allSame _ aid (mem_single_mErr aid _ _) id]
      by_cases h1 : aid = id
      · have hd : ¬ (docId aid = id) := fun hc =>
          docId_ne_self aid (hc.trans h1.symm)
        have ha : ¬ (analysisId aid = id) := fun hc =>
          analysisId_ne_self aid (hc.trans h1.symm)
        have hr : ¬ (reportId aid = id) := fun hc =>
          reportId_ne_self aid (hc.trans h1.symm)
        rw [if_pos h1, if_neg hd, if_pos h1, if_neg ha, if_pos h1,
          if_neg hr, if_pos h1]
        constructor
        · simp only [List.append_nil, List.nil_append, List.map_append,
            List.map_cons, List.map_nil, mProg, masterErrEvent]
          decide
        · simp only [List.append_nil, List.nil_append, List.map_append,
            List.map_cons, List.map_nil, mProg, masterErrEvent]
          decide
      · by_cases h2 : docId aid = id
        · have ha : ¬ (analysisId aid = id) := fun hc =>
            (docId_ne_analysisId aid).symm (hc.trans h2.symm)
          have hr : ¬ (reportId aid = id) := fun hc =>
            (docId_ne_reportId aid).symm (hc.trans h2.symm)
          rw [if_neg h1, if_pos h2, if_neg h1, if_neg ha, if_neg h1,
            if_neg hr, if_neg h1]
          simp only [List.append_nil, List.nil_append]
          constructor
          · rw [subAgentTrace_map_progress_ok]
            exact doc_ok_shape_ok.1
          · rw [subAgentTrace_map_status_ok]
            exact doc_ok_shape_ok.2
        · by_cases h3 : analysisId aid = id
          · have hr : ¬ (reportId aid = id) := fun hc =>
              (analysisId_ne_reportId aid).symm (hc.trans h3.symm)
            rw [if_neg h1, if_neg h2, if_neg h1, if_pos h3, if_neg h1,
              if_neg hr, if_neg h1]
            simp only [List.append_nil, List.nil_append]
            constructor
            · rw [subAgentTrace_map_progress_ok]
              exact analysis_ok_shape_ok.1
            · rw [subAgentTrace_map_status_ok]
              exact analysis_ok_shape_ok.2
          · by_cases h4 : reportId aid = id
            · rw [if_neg h1, if_neg h2, if_neg h1, if_neg h3, if_neg h1,
                if_pos h4, if_neg h1]
              simp only [List.append_nil, List.nil_append]
              constructor
              · rw [subAgentTrace_map_progress_fail]
                exact (report_fail_shape_ok k (by omega)).1
              · rw [subAgentTrace_map_status_fail]
                exact (report_fail_shape_ok k (by omega)).2
            · rw [if_neg h1, if_neg h2, if_neg h1, if_neg h3, if_neg h1,
                if_neg h4, if_neg h1]
              exact ⟨rfl, rfl⟩

/-- Witness for C5_progress_monotone_until_terminal: the run that fails
in attachment download, observed at the document sub-agent's id. -/
theorem C5_progress_monotone_witness :
    outcomeValid (MasterOutcome.failDoc 3 "No attachments found in email") =
      true ∧
    (nondecRats ((eventsOf (masterRun "r"
        (MasterOutcome.failDoc 3 "No attachments found in email"))
        "r_document").map (fun ev => ev.progressVal)) = true ∧
      terminalOnlyLast ((eventsOf (masterRun "r"
        (MasterOutcome.failDoc 3 "No attachments found in email"))
        "r_document").map (fun ev => ev.status)) = true) :=
  ⟨by decide,
   C5_progress_monotone_until_terminal "r"
     (MasterOutcome.failDoc 3 "No attachments found in email") (by decide)
     "r_document"⟩

/-- Claim C6.  If the intake (document) phase raises, the master agent's
status ends FAILED, the pipeline records the run in history with status
FAILED and the wrapped error string, the run is removed from the
active-run table, and no event of the run trace ever carries the
analysis or report sub-agent id — those units are never constructed. -/
theorem C6_intake_failure_no_analysis_events (aid e sender : String)
    (k : Nat) (st : PipelineState)
    (hv : outcomeValid (MasterOutcome.failDoc k e) = true)
    (hfresh : aid ∉ st.active) :
    masterFinalStatus (MasterOutcome.failDoc k e) = AgentStatus.FAILED ∧
    (start_processing st aid sender
      (pipelineOutcome (MasterOutcome.failDoc k e) {})).2.record.status =
      "FAILED" ∧
    (start_processing st aid sender
      (pipelineOutcome (MasterOutcome.failDoc k e) {})).2.record.error =
      some ("Claims processing failed: " ++
        ("Document processing failed: " ++ e)) ∧
    (start_processing st aid sender
      (pipelineOutcome (MasterOutcome.failDoc k e) {})).1.processing_history =
      st.processing_history ++
        [(start_processing st aid sender
          (pipelineOutcome (MasterOutcome.failDoc k e) {})).2.record] ∧
    aid ∉ (start_processing st aid sender
      (pipelineOutcome (MasterOutcome.failDoc k e) {})).1.active ∧
    (∀ ev ∈ masterRun aid (MasterOutcome.failDoc k e),
      ev.agent_id ≠ analysisId aid ∧ ev.agent_id ≠ reportId aid) := by
  refine ⟨rfl, rfl, rfl, rfl, ?_, ?_⟩
  · have herase : (st.active ++ [aid]).erase aid = st.active := by
      rw [List.erase_append_right _ hfresh]
      simp
    simp only [start_processing, pipelineOutcome, herase]
    exact hfresh
  · intro ev hev
    have htr : masterRun aid (MasterOutcome.failDoc k e) =
        [mProg aid "initialization"
          "Initializing master claims processing agent" 2,
         mProg aid "document_processing"
          "Starting document processing phase" 5] ++
        subAgentTrace (docId aid) docWorkStages
          "Document processing completed successfully" (some k)
          ("Document processing failed: " ++ e) ++
        [masterErrEvent aid 5
          ("Master agent execution failed: Document processing failed: "
            ++ e)] := rfl
    rw [htr] at hev
    rcases List.mem_append.mp hev with hev1 | herr
    · rcases List.mem_append.mp hev1 with h12 | hdoc
      · have hida : ev.agent_id = aid :=
          mem_pair_mProg aid _ _ _ _ _ _ ev h12
        rw [hida]
        exact ⟨fun hc => analysisId_ne_self aid hc.symm,
          fun hc => reportId_ne_self aid hc.symm⟩
      · have hidd : ev.agent_id = docId aid :=
          subAgentTrace_ids (docId aid) docWorkStages _ _ _ ev hdoc
        rw [hidd]
        exact ⟨docId_ne_analysisId aid, docId_ne_reportId aid⟩
    · have hida : ev.agent_id = aid := mem_single_mErr aid _ _ ev herr
      rw [hida]
      exact ⟨fun hc => analysisId_ne_self aid hc.symm,
        fun hc => reportId_ne_self aid hc.symm⟩

/-- Witness for C6_intake_failure_no_analysis_events: a run failing with
"No attachments found in email" after the attachment_download checkpoint,
on a fresh controller. -/
theorem C6_intake_failure_witness :
    outcomeValid (MasterOutcome.failDoc 3 "No attachments found in email") =
      true ∧
    "r" ∉ ({} : PipelineState).active ∧
    (masterFinalStatus
        (MasterOutcome.failDoc 3 "No attachments found in email") =
      AgentStatus.FAILED ∧
    (start_processing {} "r" "s"
      (pipelineOutcome
        (MasterOutcome.failDoc 3 "No attachments found in email")
        {})).2.record.status = "FAILED" ∧
    (start_processing {} "r" "s"
      (pipelineOutcome
        (MasterOutcome.failDoc 3 "No attachments found in email")
        {})).2.record.error =
      some ("Claims processing failed: " ++
        ("Document processing failed: " ++ "No attachments found in email")) ∧
    (start_processing {} "r" "s"
      (pipelineOutcome
        (MasterOutcome.failDoc 3 "No attachments found in email")
        {})).1.processing_history =
      ({} : PipelineState).processing_history ++
        [(start_processing {} "r" "s"
          (pipelineOutcome
            (MasterOutcome.failDoc 3 "No attachments found in email")
            {})).2.record] ∧
    "r" ∉ (start_processing {} "r" "s"
      (pipelineOutcome
        (MasterOutcome.failDoc 3 "No attachments found in email")
        {})).1.active ∧
    (∀ ev ∈ masterRun "r"
        (MasterOutcome.failDoc 3 "No attachments found in email"),
      ev.agent_id ≠ analysisId "r" ∧ ev.agent_id ≠ reportId "r")) :=
  ⟨by decide, by decide,
   C6_intake_failure_no_analysis_events "r" "No attachments found in email"
     "s" 3 {} (by decide) (by decide)⟩
